import Mathlib

/-!
Verification of the `amazon-bedrock-pr-review-bot` CDK stack against its
natural-language specification.

The repository is AWS CDK infrastructure code.  The shallow embedding below
translates the configuration objects the constructs build:

* `ReviewBotLambda` (`src/lib/constructs/lambda.ts`): the seven Lambda
  function definitions, their shared `commonProps`, and the CloudWatch
  dashboard widget layout.
* `ReviewBotApi` (`src/lib/constructs/api-gateway.ts`): the single
  `POST /webhook` method, its request template (single-quote stripping and
  JavaScript escaping of the body) and its 200 integration response.
* `ReviewBotStepFunctions` (`src/lib/constructs/step-functions.ts`) is
  referenced from the stack (`src/unnamed/part_000`) but its source is not
  part of the given sources; where a claim depends on it, a definition
  modelled from the spec stands in (each such definition says so in its
  doc comment).

External object references (IAM role, Lambda layer versions, the VPC) are
abstracted as numeric identities carried in by the props structure, exactly
as the TypeScript props interface carries object references.
-/

namespace ReviewBot

/-- Lambda runtime selector; the stack only ever uses `PYTHON_3_12`. -/
inductive Runtime where
  | python312
deriving DecidableEq, Repr

/-- Lambda tracing setting; `commonProps` sets `Tracing.DISABLED`. -/
inductive Tracing where
  | disabled
  | active
deriving DecidableEq, Repr

/-- Props of the `ReviewBotLambda` construct (`ReviewBotLambdaProps`):
an IAM role, the `requests` layer, the `networkx` layer and a VPC, all
external object references abstracted as identities. -/
structure ReviewBotLambdaProps where
  roleId : Nat
  requestsLayerId : Nat
  networkxLayerId : Nat
  vpcId : Nat
deriving DecidableEq, Repr

/-- The configuration record of one provisioned `lambda.Function`. -/
structure FunctionDef where
  functionName : String
  description : String
  codeAsset : String
  handler : String
  timeoutSeconds : Nat
  memorySize : Nat
  layers : List Nat
  runtime : Runtime
  roleId : Nat
  tracing : Tracing
  logRetentionDays : Nat
  environment : List (String × String)
  vpcId : Option Nat
deriving DecidableEq, Repr

/-- The fields shared by every function via the `...commonProps` spread. -/
structure CommonConfig where
  runtime : Runtime
  roleId : Nat
  tracing : Tracing
  logRetentionDays : Nat
  environment : List (String × String)
deriving DecidableEq, Repr

/-- `commonProps` from `lambda.ts`: Python 3.12, the props role, tracing
disabled, one-month log retention, and the powertools environment. -/
def commonProps (p : ReviewBotLambdaProps) : CommonConfig :=
  { runtime := Runtime.python312,
    roleId := p.roleId,
    tracing := Tracing.disabled,
    logRetentionDays := 30,
    environment := [("POWERTOOLS_SERVICE_NAME", "pr-reviewer"), ("LOG_LEVEL", "INFO")] }

/-- `this.functions.initialProcessing`: the webhook-ingestion worker. -/
def initialProcessing (p : ReviewBotLambdaProps) : FunctionDef :=
  { runtime := (commonProps p).runtime,
    roleId := (commonProps p).roleId,
    tracing := (commonProps p).tracing,
    logRetentionDays := (commonProps p).logRetentionDays,
    environment := (commonProps p).environment,
    functionName := "PRR-InitialProcessingFunction",
    description := "Process initial webhook payload",
    codeAsset := "src/lambda/initial-processing",
    handler := "index.lambda_handler",
    timeoutSeconds := 30,
    memorySize := 256,
    layers := [p.requestsLayerId],
    vpcId := none }

/-- `this.functions.splitPr`: the chunk-splitting worker; the only one that
also receives the `networkx` layer. -/
def splitPr (p : ReviewBotLambdaProps) : FunctionDef :=
  { runtime := (commonProps p).runtime,
    roleId := (commonProps p).roleId,
    tracing := (commonProps p).tracing,
    logRetentionDays := (commonProps p).logRetentionDays,
    environment := (commonProps p).environment,
    functionName := "PRR-SplitPRIntoChunksFunction",
    description := "Split PR into analyzable chunks",
    codeAsset := "src/lambda/split-pr",
    handler := "index.lambda_handler",
    timeoutSeconds := 300,
    memorySize := 512,
    layers := [p.requestsLayerId, p.networkxLayerId],
    vpcId := none }

/-- `this.functions.processChunk`: the chunk-analysis worker; timeout is the
literal `cdk.Duration.minutes(10)`. -/
def processChunk (p : ReviewBotLambdaProps) : FunctionDef :=
  { runtime := (commonProps p).runtime,
    roleId := (commonProps p).roleId,
    tracing := (commonProps p).tracing,
    logRetentionDays := (commonProps p).logRetentionDays,
    environment := (commonProps p).environment,
    functionName := "PRR-ProcessChunkFunction",
    description := "Process individual PR chunk",
    codeAsset := "src/lambda/process-chunk",
    handler := "index.lambda_handler",
    timeoutSeconds := 600,
    memorySize := 1024,
    layers := [p.requestsLayerId],
    vpcId := none }

/-- `this.functions.aggregateResults`: the aggregation worker; it sets no
`layers` key at all. -/
def aggregateResults (p : ReviewBotLambdaProps) : FunctionDef :=
  { runtime := (commonProps p).runtime,
    roleId := (commonProps p).roleId,
    tracing := (commonProps p).tracing,
    logRetentionDays := (commonProps p).logRetentionDays,
    environment := (commonProps p).environment,
    functionName := "PRR-AggregateResultsFunction",
    description := "Aggregate review results",
    codeAsset := "src/lambda/aggregate-results",
    handler := "index.lambda_handler",
    timeoutSeconds := 300,
    memorySize := 512,
    layers := [],
    vpcId := none }

/-- `this.functions.postPrComment`: the publication worker; the only one
placed in the VPC (private-with-egress subnets). -/
def postPrComment (p : ReviewBotLambdaProps) : FunctionDef :=
  { runtime := (commonProps p).runtime,
    roleId := (commonProps p).roleId,
    tracing := (commonProps p).tracing,
    logRetentionDays := (commonProps p).logRetentionDays,
    environment := (commonProps p).environment,
    functionName := "PRR-PostPRCommentFunction",
    description := "Post review comments to PR",
    codeAsset := "src/lambda/post-pr-comment",
    handler := "index.lambda_handler",
    timeoutSeconds := 120,
    memorySize := 256,
    layers := [p.requestsLayerId],
    vpcId := some p.vpcId }

/-- `this.functions.sendSlackNotification`: the notification worker. -/
def sendSlackNotification (p : ReviewBotLambdaProps) : FunctionDef :=
  { runtime := (commonProps p).runtime,
    roleId := (commonProps p).roleId,
    tracing := (commonProps p).tracing,
    logRetentionDays := (commonProps p).logRetentionDays,
    environment := (commonProps p).environment,
    functionName := "PRR-SendSlackNotificationFunction",
    description := "Send Slack notifications",
    codeAsset := "src/lambda/send-slack-notification",
    handler := "index.lambda_handler",
    timeoutSeconds := 60,
    memorySize := 256,
    layers := [p.requestsLayerId],
    vpcId := none }

/-- `this.functions.handleError`: the error-handling worker. -/
def handleError (p : ReviewBotLambdaProps) : FunctionDef :=
  { runtime := (commonProps p).runtime,
    roleId := (commonProps p).roleId,
    tracing := (commonProps p).tracing,
    logRetentionDays := (commonProps p).logRetentionDays,
    environment := (commonProps p).environment,
    functionName := "PRR-HandleErrorFunction",
    description := "Handle workflow errors",
    codeAsset := "src/lambda/handle-error",
    handler := "index.lambda_handler",
    timeoutSeconds := 60,
    memorySize := 256,
    layers := [p.requestsLayerId],
    vpcId := none }

/-- `ReviewBotLambda.functions`: the keyed map of the seven functions, in
insertion order. -/
def functions (p : ReviewBotLambdaProps) : List (String × FunctionDef) :=
  [("initialProcessing", initialProcessing p),
   ("splitPr", splitPr p),
   ("processChunk", processChunk p),
   ("aggregateResults", aggregateResults p),
   ("postPrComment", postPrComment p),
   ("sendSlackNotification", sendSlackNotification p),
   ("handleError", handleError p)]

/-- The seven pipeline components named in the spec overview. -/
inductive Component where
  | webhookIngestion
  | chunkSplitting
  | chunkAnalysis
  | resultAggregation
  | publication
  | notification
  | errorHandling
deriving DecidableEq, Repr

/-- All seven components. -/
def allComponents : List Component :=
  [Component.webhookIngestion, Component.chunkSplitting, Component.chunkAnalysis,
   Component.resultAggregation, Component.publication, Component.notification,
   Component.errorHandling]

/-- Which key of `functions` backs each pipeline component. -/
def componentFunction : Component → String
  | Component.webhookIngestion => "initialProcessing"
  | Component.chunkSplitting => "splitPr"
  | Component.chunkAnalysis => "processChunk"
  | Component.resultAggregation => "aggregateResults"
  | Component.publication => "postPrComment"
  | Component.notification => "sendSlackNotification"
  | Component.errorHandling => "handleError"

/-- The key list of `functions` does not depend on the props. -/
theorem functions_keys (p : ReviewBotLambdaProps) :
    (functions p).map Prod.fst =
      ["initialProcessing", "splitPr", "processChunk", "aggregateResults",
       "postPrComment", "sendSlackNotification", "handleError"] := rfl

/-- A CloudWatch graph widget as built in `createCloudWatchDashboard`. -/
structure GraphWidget where
  title : String
  leftMetrics : List String
  width : Nat
deriving DecidableEq, Repr

/-- One widget per functions-map entry: title `` `${name} Metrics` ``, the four
left metrics, width 12. -/
def functionWidget (name : String) : GraphWidget :=
  { title := name ++ " Metrics",
    leftMetrics := ["Invocations", "Errors", "Throttles", "Duration"],
    width := 12 }

/-- The widget list pushed in `Object.entries(this.functions).forEach`. -/
def dashboardWidgets (p : ReviewBotLambdaProps) : List GraphWidget :=
  (functions p).map (fun kf => functionWidget kf.1)

/-- The `for (let i = 0; i < widgets.length; i += 2)` loop: each iteration
adds `widgets.slice(i, i + 2)` — at most two widgets — as one dashboard row. -/
def widgetRows : List GraphWidget → List (List GraphWidget)
  | [] => []
  | [w] => [[w]]
  | a :: b :: t => [a, b] :: widgetRows t

/-- API Gateway integration types; the webhook method uses `AWS`. -/
inductive IntegrationType where
  | aws
  | awsProxy
  | http
  | httpProxy
  | mock
deriving DecidableEq, Repr

/-- One REST API method with its integration wiring. -/
structure MethodDef where
  resourcePath : String
  httpMethod : String
  integrationType : IntegrationType
  integrationHttpMethod : String
  uriAction : String
deriving DecidableEq, Repr

/-- The single method added in `ReviewBotApi`: `POST` on the `webhook`
resource, an `AWS` integration whose URI targets the `StartExecution`
action of Step Functions. -/
def webhookPostMethod : MethodDef :=
  { resourcePath := "webhook",
    httpMethod := "POST",
    integrationType := IntegrationType.aws,
    integrationHttpMethod := "POST",
    uriAction := "StartExecution" }

/-- Every method the `ReviewBotApi` construct adds to the REST API. -/
def apiMethods : List MethodDef := [webhookPostMethod]

/-- `$body.replace("'", "")` from the request template: every single-quote
character is removed from the body. -/
def removeSingleQuotes (s : String) : String :=
  ⟨s.data.filter (fun c => c != '\'')⟩

/-- Per-character JavaScript string escaping, modelling the behaviour of the
(external, AWS-provided) `$util.escapeJavaScript` utility on one character:
backslash, quotes and control characters gain a backslash escape, every
other character passes through. -/
def escapeJavaScriptChar (c : Char) : List Char :=
  if c = '\\' then ['\\', '\\']
  else if c = '"' then ['\\', '"']
  else if c = '\'' then ['\\', '\'']
  else if c = '\n' then ['\\', 'n']
  else if c = '\r' then ['\\', 'r']
  else if c = '\t' then ['\\', 't']
  else [c]

/-- `$util.escapeJavaScript` applied to a whole string. -/
def escapeJavaScript (s : String) : String :=
  ⟨(s.data.map escapeJavaScriptChar).flatten⟩

/-- The JSON document the request template produces for `StartExecution`. -/
structure StartExecutionRequest where
  input : String
  stateMachineArn : String
deriving DecidableEq, Repr

/-- The `application/json` request template of the webhook method: the body
with single quotes removed is JavaScript-escaped and wrapped as the
execution input, and the configured state machine ARN is passed along. -/
def webhookRequestTemplate (arn body : String) : StartExecutionRequest :=
  { input := "\x7b\"body\": " ++ escapeJavaScript (removeSingleQuotes body) ++ "\x7d",
    stateMachineArn := arn }

/-- The fields of the Step Functions `StartExecution` response the response
template reads via `$util.parseJson($input.body)`. -/
structure StartExecutionResponse where
  executionArn : String
  startDate : String
deriving DecidableEq, Repr

/-- The webhook caller's response as shaped by the 200 integration
response template. -/
structure WebhookResponse where
  statusCode : Nat
  executionArn : String
  startDate : String
deriving DecidableEq, Repr

/-- The single `integrationResponses` entry: status code 200, body carrying
`executionArn` and `startDate` from the `StartExecution` response. -/
def webhookResponse (r : StartExecutionResponse) : WebhookResponse :=
  { statusCode := 200,
    executionArn := r.executionArn,
    startDate := r.startDate }

/-- Terminal status of a workflow execution. -/
inductive TerminalStatus where
  | succeeded
  | failed
deriving DecidableEq, Repr

/-- Modelled from the spec: the `ReviewBotStepFunctions` construct
(`src/lib/constructs/step-functions.ts`) that owns execution completion is
referenced from the stack but missing from the given sources.  Spec §6:
"Execution completion exposes: executionId, terminal status
(`Succeeded`/`Failed`), and (on success) a reference to the published
review location." -/
structure ExecutionCompletion where
  executionId : String
  status : TerminalStatus
  reviewLocation : Option String
deriving DecidableEq, Repr

/-- Modelled from the spec: completing an execution exposes its id and
terminal status, and carries the published review location exactly on
success. -/
def completeExecution (eid : String) (st : TerminalStatus) (loc : String) :
    ExecutionCompletion :=
  { executionId := eid,
    status := st,
    reviewLocation := if st = TerminalStatus.succeeded then some loc else none }

/-- Kind of a state-machine state: a plain task or a fan-out map state. -/
inductive StateType where
  | task
  | map
deriving DecidableEq, Repr

/-- One state of the workflow state machine. -/
structure SfnState where
  name : String
  stype : StateType
  maxConcurrency : Option Nat
deriving DecidableEq, Repr

/-- Modelled from the spec: the state machine of the missing
`ReviewBotStepFunctions` construct.  Spec §2/§5: the pipeline sequences
ingestion, splitting, a single bounded-parallel Analyzing fan-out over the
chunks, aggregation, publication, notification, with an error handler; the
Analyzing stage is "the only fan-out point" and carries "a configured
maximum concurrent in-flight analyses" `mc`. -/
def stateMachineStates (mc : Nat) : List SfnState :=
  [⟨"InitialProcessing", StateType.task, none⟩,
   ⟨"SplitPRIntoChunks", StateType.task, none⟩,
   ⟨"ProcessChunks", StateType.map, some mc⟩,
   ⟨"AggregateResults", StateType.task, none⟩,
   ⟨"PostPRComment", StateType.task, none⟩,
   ⟨"SendSlackNotification", StateType.task, none⟩,
   ⟨"HandleError", StateType.task, none⟩]

/-- A chunk dispatched to the Analyzing stage. -/
structure Chunk where
  chunkId : Nat
  content : String
deriving DecidableEq, Repr

/-- The per-chunk outcome the join barrier collects. -/
structure ChunkResult where
  chunkId : Nat
  ok : Bool
deriving DecidableEq, Repr

/-- Modelled from the spec: the Analyzing stage's join barrier collects one
terminal outcome for every dispatched chunk, in dispatch order, before the
workflow proceeds. -/
def runAnalyzing (chunks : List Chunk) (f : Chunk → ChunkResult) :
    List ChunkResult :=
  chunks.map f

/-- Whether the per-attempt analysis timeout can be set through the
construct's configuration surface: true iff two prop valuations can yield
different timeouts for the chunk-analysis worker. -/
def perAttemptTimeoutConfigurable : Prop :=
  ∃ p q : ReviewBotLambdaProps,
    (processChunk p).timeoutSeconds ≠ (processChunk q).timeoutSeconds

/-- Concatenating the dashboard rows restores the widget list unchanged. -/
theorem widgetRows_flatten : ∀ l : List GraphWidget, (widgetRows l).flatten = l
  | [] => rfl
  | [_] => rfl
  | a :: b :: t => by
      simp [widgetRows, widgetRows_flatten t]

/-- Every dashboard row is nonempty and holds at most two widgets. -/
theorem widgetRows_bounded :
    ∀ l : List GraphWidget, ∀ r ∈ widgetRows l, r ≠ [] ∧ r.length ≤ 2
  | [], r, hr => by simp [widgetRows] at hr
  | [w], r, hr => by
      simp only [widgetRows, List.mem_singleton] at hr
      subst hr
      exact ⟨by simp, by simp⟩
  | a :: b :: t, r, hr => by
      simp only [widgetRows, List.mem_cons] at hr
      rcases hr with rfl | hr
      · exact ⟨by simp, by simp⟩
      · exact widgetRows_bounded t r hr

/-- For an odd widget count the last dashboard row is a singleton. -/
theorem widgetRows_last_odd :
    ∀ l : List GraphWidget, l.length % 2 = 1 →
      ∃ w, (widgetRows l).getLast? = some [w]
  | [], h => by simp at h
  | [w], _ => ⟨w, rfl⟩
  | a :: b :: t, h => by
      have ht : t.length % 2 = 1 := by
        have hlen : (a :: b :: t).length = t.length + 2 := by simp
        rw [hlen] at h
        omega
      obtain ⟨w, hw⟩ := widgetRows_last_odd t ht
      refine ⟨w, ?_⟩
      cases hrt : widgetRows t with
      | nil => rw [hrt] at hw; simp at hw
      | cons y ys =>
          rw [hrt] at hw
          rw [widgetRows, hrt, List.getLast?_cons_cons]
          exact hw

/-- C1: the deployed stack provisions exactly one worker function per
pipeline component — webhook ingestion, chunk splitting, chunk analysis,
result aggregation, publication, notification, error handling — seven
functions in total, with distinct keys, each component backed by exactly
one function and distinct components backed by distinct functions. -/
theorem claim1_one_function_per_component (p : ReviewBotLambdaProps) :
    (functions p).length = 7 ∧
    ((functions p).map Prod.fst).Nodup ∧
    (allComponents.map componentFunction).Nodup ∧
    ∀ c : Component,
      ((functions p).map Prod.fst).count (componentFunction c) = 1 := by
  refine ⟨rfl, ?_, ?_, ?_⟩
  · rw [functions_keys]
    decide
  · decide
  · intro c
    rw [functions_keys]
    cases c <;> decide

/-- C2: the API exposes exactly one inbound trigger — a `POST` method on the
`/webhook` resource whose `AWS` integration invokes the Step Functions
`StartExecution` action on the configured state machine, forwarding the
caller's JSON body (quote-stripped and escaped per the template) as the
execution input; no other method or resource exists. -/
theorem claim2_single_webhook_trigger :
    apiMethods = [webhookPostMethod] ∧
    webhookPostMethod.resourcePath = "webhook" ∧
    webhookPostMethod.httpMethod = "POST" ∧
    webhookPostMethod.integrationType = IntegrationType.aws ∧
    webhookPostMethod.integrationHttpMethod = "POST" ∧
    webhookPostMethod.uriAction = "StartExecution" ∧
    ∀ arn body : String,
      (webhookRequestTemplate arn body).stateMachineArn = arn ∧
      (webhookRequestTemplate arn body).input =
        "\x7b\"body\": " ++ escapeJavaScript (removeSingleQuotes body) ++ "\x7d" :=
  ⟨rfl, rfl, rfl, rfl, rfl, rfl, fun _ _ => ⟨rfl, rfl⟩⟩

/-- C3: the execution input embeds the body with every single quote removed
and then JavaScript-escaped; a body containing a single quote is therefore
not preserved (the forwarded content differs from the received payload),
while a body without single quotes is preserved up to escaping. -/
theorem claim3_quote_stripping (body : String) :
    (∀ arn : String,
      (webhookRequestTemplate arn body).input =
        "\x7b\"body\": " ++ escapeJavaScript (removeSingleQuotes body) ++ "\x7d") ∧
    ('\'' ∈ body.data → removeSingleQuotes body ≠ body) ∧
    ('\'' ∉ body.data → removeSingleQuotes body = body) := by
  refine ⟨fun _ => rfl, ?_, ?_⟩
  · intro hmem heq
    have hd : body.data.filter (fun c => c != '\'') = body.data :=
      congrArg String.data heq
    have h2 : '\'' ∈ body.data.filter (fun c => c != '\'') := by
      rw [hd]; exact hmem
    have h3 := List.mem_filter.mp h2
    simp at h3
  · intro hnot
    show (⟨body.data.filter (fun c => c != '\'')⟩ : String) = body
    have hd : body.data.filter (fun c => c != '\'') = body.data := by
      rw [List.filter_eq_self]
      intro a ha
      simp only [bne_iff_ne, ne_eq, decide_eq_true_eq]
      intro hq
      exact hnot (hq ▸ ha)
    rw [hd]

/-- Witness for C3 at concrete payloads: a body holding a quote is changed,
a quote-free body is kept. -/
theorem claim3_witness :
    removeSingleQuotes "diff --a 'x'" ≠ "diff --a 'x'" ∧
    removeSingleQuotes "diff --a x" = "diff --a x" :=
  ⟨(claim3_quote_stripping "diff --a 'x'").2.1 (by decide),
   (claim3_quote_stripping "diff --a x").2.2 (by decide)⟩

/-- C4 counterexample: the per-attempt analysis timeout is not supplied
through the construct's configuration surface — no valuation of
`ReviewBotLambdaProps` (role, layers, VPC) can change the chunk-analysis
worker's timeout, which is the hard-coded literal `Duration.minutes(10)`. -/
theorem claim4_counterexample : ¬ perAttemptTimeoutConfigurable := by
  rintro ⟨p, q, h⟩
  exact h rfl

/-- C4 (amended): the per-attempt analysis timeout and the splitter timeout
are fixed constants of the worker definitions (600 s and 300 s), identical
under every props valuation; they are not configuration options. -/
theorem claim4_timeouts_fixed (p q : ReviewBotLambdaProps) :
    (processChunk p).timeoutSeconds = 600 ∧
    (splitPr p).timeoutSeconds = 300 ∧
    (processChunk p).timeoutSeconds = (processChunk q).timeoutSeconds ∧
    (splitPr p).timeoutSeconds = (splitPr q).timeoutSeconds :=
  ⟨rfl, rfl, rfl, rfl⟩

/-- C5: every chunk-analysis attempt is bounded — the chunk-processing
worker in the functions map is configured with the finite timeout of
10 minutes (600 seconds). -/
theorem claim5_bounded_attempt_timeout (p : ReviewBotLambdaProps) :
    (functions p).lookup "processChunk" = some (processChunk p) ∧
    (processChunk p).timeoutSeconds = 600 ∧
    0 < (processChunk p).timeoutSeconds :=
  ⟨rfl, rfl, by simp [processChunk]⟩

/-- C6: the chunk-splitting worker is the only function carrying the
`networkx` layer, and every other function's layer list is contained in
the singleton `requests` layer. -/
theorem claim6_networkx_only_split (p : ReviewBotLambdaProps)
    (hne : p.networkxLayerId ≠ p.requestsLayerId) :
    ∀ kf ∈ functions p,
      (p.networkxLayerId ∈ kf.2.layers ↔ kf.1 = "splitPr") ∧
      (kf.1 ≠ "splitPr" → kf.2.layers ⊆ [p.requestsLayerId]) := by
  intro kf hkf
  simp only [functions, List.mem_cons, List.not_mem_nil, or_false] at hkf
  rcases hkf with rfl | rfl | rfl | rfl | rfl | rfl | rfl
  · refine ⟨⟨?_, ?_⟩, ?_⟩
    · intro h
      simp [initialProcessing] at h
      exact absurd h hne
    · intro h
      simp at h
    · intro _ x hx
      simpa [initialProcessing] using hx
  · refine ⟨⟨?_, ?_⟩, ?_⟩
    · intro _
      rfl
    · intro _
      simp [splitPr]
    · intro h
      exact absurd rfl h
  · refine ⟨⟨?_, ?_⟩, ?_⟩
    · intro h
      simp [processChunk] at h
      exact absurd h hne
    · intro h
      simp at h
    · intro _ x hx
      simpa [processChunk] using hx
  · refine ⟨⟨?_, ?_⟩, ?_⟩
    · intro h
      simp [aggregateResults] at h
    · intro h
      simp at h
    · intro _ x hx
      simp [aggregateResults] at hx
  · refine ⟨⟨?_, ?_⟩, ?_⟩
    · intro h
      simp [postPrComment] at h
      exact absurd h hne
    · intro h
      simp at h
    · intro _ x hx
      simpa [postPrComment] using hx
  · refine ⟨⟨?_, ?_⟩, ?_⟩
    · intro h
      simp [sendSlackNotification] at h
      exact absurd h hne
    · intro h
      simp at h
    · intro _ x hx
      simpa [sendSlackNotification] using hx
  · refine ⟨⟨?_, ?_⟩, ?_⟩
    · intro h
      simp [handleError] at h
      exact absurd h hne
    · intro h
      simp at h
    · intro _ x hx
      simpa [handleError] using hx

/-- Witness for C6 at concrete props (distinct layer identities): the
splitter entry of the functions map does carry the `networkx` layer. -/
theorem claim6_witness :
    (⟨0, 1, 2, 3⟩ : ReviewBotLambdaProps).networkxLayerId ∈
        (splitPr ⟨0, 1, 2, 3⟩).layers ↔
      ("splitPr", splitPr (⟨0, 1, 2, 3⟩ : ReviewBotLambdaProps)).1 = "splitPr" :=
  (claim6_networkx_only_split ⟨0, 1, 2, 3⟩ (by decide)
    ("splitPr", splitPr ⟨0, 1, 2, 3⟩) (by decide)).1

/-- C7: execution completion exposes the execution id, the terminal status
and, on success, the published review location (spec-modelled completion
record), and the webhook caller's 200 response carries the execution's
`executionArn` and `startDate` (from the integration response template). -/
theorem claim7_completion_and_response (eid loc : String) (st : TerminalStatus)
    (r : StartExecutionResponse) :
    (completeExecution eid st loc).executionId = eid ∧
    (completeExecution eid st loc).status = st ∧
    (st = TerminalStatus.succeeded →
      (completeExecution eid st loc).reviewLocation = some loc) ∧
    (webhookResponse r).statusCode = 200 ∧
    (webhookResponse r).executionArn = r.executionArn ∧
    (webhookResponse r).startDate = r.startDate := by
  refine ⟨rfl, rfl, ?_, rfl, rfl, rfl⟩
  intro h
  simp [completeExecution, h]

/-- Witness for C7 at a concrete successful execution and a concrete
`StartExecution` response. -/
theorem claim7_witness :
    (completeExecution "exec-1" TerminalStatus.succeeded "review-url").reviewLocation =
      some "review-url" ∧
    (webhookResponse ⟨"arn-1", "date-1"⟩).statusCode = 200 :=
  ⟨(claim7_completion_and_response "exec-1" "review-url" TerminalStatus.succeeded
      ⟨"arn-1", "date-1"⟩).2.2.1 rfl,
   (claim7_completion_and_response "exec-1" "review-url" TerminalStatus.succeeded
      ⟨"arn-1", "date-1"⟩).2.2.2.1⟩

/-- C8: in the (spec-modelled) state machine the Analyzing map state is the
unique fan-out point, it carries the configured concurrency bound `mc`, and
its join barrier yields exactly one outcome per dispatched chunk in
dispatch order. -/
theorem claim8_bounded_fanout_single_join (mc : Nat) (chunks : List Chunk)
    (f : Chunk → ChunkResult) :
    (stateMachineStates mc).filter (fun s => s.stype == StateType.map) =
      [⟨"ProcessChunks", StateType.map, some mc⟩] ∧
    (runAnalyzing chunks f).length = chunks.length ∧
    runAnalyzing chunks f = chunks.map f :=
  ⟨rfl, by simp [runAnalyzing], rfl⟩

/-- C9: the dashboard holds one graph widget per functions-map entry, rows
of at most two widgets each, no widget dropped or duplicated (flattening
the rows restores the widget list in order), and an odd widget count makes
the last row a singleton. -/
theorem claim9_dashboard_layout (p : ReviewBotLambdaProps) :
    (dashboardWidgets p).length = (functions p).length ∧
    dashboardWidgets p = (functions p).map (fun kf => functionWidget kf.1) ∧
    (widgetRows (dashboardWidgets p)).flatten = dashboardWidgets p ∧
    (∀ r ∈ widgetRows (dashboardWidgets p), r ≠ [] ∧ r.length ≤ 2) ∧
    ((dashboardWidgets p).length % 2 = 1 →
      ∃ w, (widgetRows (dashboardWidgets p)).getLast? = some [w]) :=
  ⟨by simp [dashboardWidgets], rfl, widgetRows_flatten _, widgetRows_bounded _,
   widgetRows_last_odd _⟩

/-- Witness for C9 at concrete props: the seven widgets make the last
dashboard row a singleton. -/
theorem claim9_witness :
    ∃ w, (widgetRows (dashboardWidgets ⟨0, 1, 2, 3⟩)).getLast? = some [w] :=
  (claim9_dashboard_layout ⟨0, 1, 2, 3⟩).2.2.2.2 (by decide)

/-- C10: every provisioned function inherits the shared configuration —
Python 3.12 runtime, the props role, tracing disabled, one-month (30-day)
log retention, the powertools environment — and VPC placement occurs for
the publisher entry and no other. -/
theorem claim10_shared_configuration (p : ReviewBotLambdaProps) :
    ∀ kf ∈ functions p,
      kf.2.runtime = Runtime.python312 ∧
      kf.2.roleId = p.roleId ∧
      kf.2.tracing = Tracing.disabled ∧
      kf.2.logRetentionDays = 30 ∧
      kf.2.environment =
        [("POWERTOOLS_SERVICE_NAME", "pr-reviewer"), ("LOG_LEVEL", "INFO")] ∧
      (kf.2.vpcId = some p.vpcId ↔ kf.1 = "postPrComment") := by
  intro kf hkf
  simp only [functions, List.mem_cons, List.not_mem_nil, or_false] at hkf
  rcases hkf with rfl | rfl | rfl | rfl | rfl | rfl | rfl <;>
    refine ⟨rfl, rfl, rfl, rfl, rfl, ⟨?_, ?_⟩⟩
  · intro h
    simp [initialProcessing] at h
  · intro h
    simp at h
  · intro h
    simp [splitPr] at h
  · intro h
    simp at h
  · intro h
    simp [processChunk] at h
  · intro h
    simp at h
  · intro h
    simp [aggregateResults] at h
  · intro h
    simp at h
  · intro _
    rfl
  · intro _
    rfl
  · intro h
    simp [sendSlackNotification] at h
  · intro h
    simp at h
  · intro h
    simp [handleError] at h
  · intro h
    simp at h

/-- Witness for C10 at concrete props, on the ingestion entry of the
functions map. -/
theorem claim10_witness :
    (initialProcessing ⟨0, 1, 2, 3⟩).runtime = Runtime.python312 ∧
    (initialProcessing ⟨0, 1, 2, 3⟩).logRetentionDays = 30 :=
  ⟨(claim10_shared_configuration ⟨0, 1, 2, 3⟩
      ("initialProcessing", initialProcessing ⟨0, 1, 2, 3⟩) (by decide)).1,
   (claim10_shared_configuration ⟨0, 1, 2, 3⟩
      ("initialProcessing", initialProcessing ⟨0, 1, 2, 3⟩) (by decide)).2.2.2.1⟩

end ReviewBot
